import Mathlib

/-
Verification development for the Page-Proof-QA backend (document ingestion
pipeline and grounded question-answering engine).  The Python source is
shallowly embedded: pure functions become Lean functions over `Nat`, `Int`,
`ℚ` and `String`; the database session and the OpenAI client become explicit
oracle fields of a world record; Python floats become exact rationals.
-/

namespace PageProofQA

/-! ### Small Python built-ins used throughout (str.lower, str.strip, `in`, re.findall) -/

/-- Lowercase a string character by character (Python `str.lower` on ASCII input). -/
def lowerStr (s : String) : String :=
  String.mk (s.toList.map Char.toLower)

/-- Drop leading whitespace from a character list. -/
def dropLeadWs : List Char → List Char
  | [] => []
  | c :: rest => if c.isWhitespace then dropLeadWs rest else c :: rest

/-- Python `str.strip`: remove leading and trailing whitespace. -/
def stripStr (s : String) : String :=
  String.mk (((dropLeadWs s.toList.reverse).reverse |> dropLeadWs))

/-- Whether `pat` occurs as a leading block of `l` (helper for substring tests). -/
def charsLead : List Char → List Char → Bool
  | [], _ => true
  | _ :: _, [] => false
  | p :: ps, c :: cs => if p = c then charsLead ps cs else false

/-- Whether `pat` occurs contiguously inside `l` (Python `pat in s` on strings). -/
def charsContain (pat : List Char) (l : List Char) : Bool :=
  match l with
  | [] => charsLead pat []
  | _ :: rest => charsLead pat l || charsContain pat rest

/-- Python `needle in hay` for strings (substring containment). -/
def strContains (needle hay : String) : Bool :=
  charsContain needle.toList hay.toList

/-- Cut a lowered character list into maximal alphanumeric runs:
Python `re.findall(r"[a-zA-Z0-9]+", text.lower())`.  `cur` holds the
current run reversed. -/
def alnumRunsAux : List Char → List Char → List String
  | [], cur => if cur.isEmpty then [] else [String.mk cur.reverse]
  | c :: rest, cur =>
      if c.isAlphanum then alnumRunsAux rest (c :: cur)
      else if cur.isEmpty then alnumRunsAux rest []
      else String.mk cur.reverse :: alnumRunsAux rest []

/-- Python `re.findall(r"[a-zA-Z0-9]+", text.lower())`. -/
def findAlnumTokens (text : String) : List String :=
  alnumRunsAux (text.toList.map Char.toLower) []

/-- Python slice `l[:n]` for an `int` bound `n` (negative bounds count from the end). -/
def pySlice (n : Int) (l : List α) : List α :=
  if 0 ≤ n then l.take n.toNat else l.take ((l.length : Int) + n).toNat

/-! ### Configuration (`app/core/config.py`, the fields the verified core reads) -/

/-- The subset of `Settings` from `app/core/config.py` that the ingestion
pipeline and the QA engine read, with the configured defaults. -/
structure Settings where
  ocr_fallback_enabled : Bool := true
  ocr_trigger_min_words : Int := 18
  ocr_trigger_min_alnum_ratio : ℚ := 0.60
  openai_api_key : Option String := none
  openai_embedding_dimensions : Int := 1536
  retrieval_top_k : Int := 8
  retrieval_max_context_chunks : Int := 6
  answer_max_evidence_items : Int := 0
  retrieval_min_keyword_overlap : Int := 1
  evidence_question_weight : ℚ := 0.2
  evidence_answer_weight : ℚ := 0.8
  evidence_relative_score_threshold : ℚ := 0.60
  evidence_drop_ratio_stop : ℚ := 0.72
  evidence_min_absolute_score : ℚ := 0.20
  retrieval_max_vector_distance : ℚ := 1.2
  minimum_evidence_items : Int := 1
  require_llm_citations : Bool := true

/-- A `Settings()` instance with every default. -/
def defaultSettings : Settings := {}

/-! ### Document ingestion (`app/services/document_processing.py`) -/

/-- `CHUNK_MAX_CHARS` from `document_processing.py`. -/
def CHUNK_MAX_CHARS : Nat := 900

/-- `CHUNK_OVERLAP_SPANS` from `document_processing.py`. -/
def CHUNK_OVERLAP_SPANS : Nat := 20

/-- `OCR_SCORE_MARGIN` from `document_processing.py`. -/
def OCR_SCORE_MARGIN : ℚ := 0.04

/-- A stored word-level span: `app/models/span.py` (the fields the verified
core reads; ids and page linkage are carried separately where needed). -/
structure SpanR where
  text : String
  x1 : ℚ
  y1 : ℚ
  x2 : ℚ
  y2 : ℚ
deriving DecidableEq

/-- `_word_quality_score`: `0.55·min(1, word_count/max(1, ocr_trigger_min_words))
+ 0.45·alnum_ratio`.  `word_metrics = (word_count, alnum_ratio)`. -/
def word_quality_score (word_metrics : Nat × ℚ) (settings : Settings) : ℚ :=
  let word_target : Int := max 1 settings.ocr_trigger_min_words
  let word_score : ℚ := min 1 ((word_metrics.1 : ℚ) / (word_target : ℚ))
  word_score * 0.55 + word_metrics.2 * 0.45

/-- `_should_attempt_ocr` from `document_processing.py`. -/
def should_attempt_ocr (word_metrics : Nat × ℚ) (settings : Settings) : Bool :=
  if ¬ settings.ocr_fallback_enabled then false
  else decide ((word_metrics.1 : Int) < settings.ocr_trigger_min_words
      ∨ word_metrics.2 < settings.ocr_trigger_min_alnum_ratio)

/-- `_should_use_ocr`: the native/OCR arbitration.  `native_count // 2` is
Python floor division on a non-negative int, i.e. `Nat` division. -/
def should_use_ocr (native_metrics ocr_metrics : Nat × ℚ) (settings : Settings) : Bool :=
  let native_count := native_metrics.1
  let native_ratio := native_metrics.2
  let ocr_count := ocr_metrics.1
  let ocr_ratio := ocr_metrics.2
  if ocr_count = 0 then false
  else if native_count = 0 then true
  else
    let native_score := word_quality_score native_metrics settings
    let ocr_score := word_quality_score ocr_metrics settings
    if ocr_score ≥ native_score + OCR_SCORE_MARGIN then true
    else if (native_count : Int) < settings.ocr_trigger_min_words ∧ ocr_count > native_count then true
    else if ocr_ratio ≥ native_ratio + 0.12 ∧ ocr_count ≥ max 3 (native_count / 2) then true
    else false

/-- Inner loop of `_chunk_span_window`: extend `end` over the texts that
remain from position `e` while the joined length stays within
`CHUNK_MAX_CHARS` (a window always takes at least one span). -/
def chunkWindowEnd : List String → Nat → Nat → Nat → Nat
  | [], e, _, _ => e
  | t :: rest, e, total, start =>
      let text_len := t.length + (if total ≠ 0 then 1 else 0)
      if total + text_len > CHUNK_MAX_CHARS ∧ e > start then e
      else chunkWindowEnd rest (e + 1) (total + text_len) start

/-- Outer loop of `_chunk_span_window`, fuelled by the strictly increasing
`start` (Python `while start < len(span_refs)`). -/
def chunkWindowsGo (texts : List String) : Nat → Nat → List (Nat × Nat)
  | 0, _ => []
  | fuel + 1, start =>
      if start < texts.length then
        let e := chunkWindowEnd (texts.drop start) start 0 start
        if e ≥ texts.length then [(start, e)]
        else (start, e) :: chunkWindowsGo texts fuel (max (e - CHUNK_OVERLAP_SPANS) (start + 1))
      else []

/-- `_chunk_span_window` over the global reading-order list
`(span, page_number)`: the emitted `(start, end)` windows. -/
def chunk_span_window (span_refs : List (SpanR × Int)) : List (Nat × Nat) :=
  chunkWindowsGo (span_refs.map (fun r => r.1.text)) (span_refs.length + 1) 0

/-! ### QA pure helpers (`app/services/qa.py`) -/

/-- `QUESTION_STOPWORDS` from `qa.py`. -/
def QUESTION_STOPWORDS : List String :=
  ["the", "a", "an", "of", "to", "in", "on", "for", "and", "or", "is", "was",
   "were", "are", "be", "who", "what", "when", "where", "which", "how", "did",
   "does", "do", "from", "with", "by", "at", "as", "about"]

/-- `SIGNATURE_SIGNAL_THRESHOLD` from `qa.py`. -/
def SIGNATURE_SIGNAL_THRESHOLD : ℚ := 0.9

/-- `CONTEXT_WINDOW_RADIUS` from `qa.py`. -/
def CONTEXT_WINDOW_RADIUS : Nat := 1

/-- `INSUFFICIENT_EVIDENCE_ANSWER` from `qa.py`. -/
def INSUFFICIENT_EVIDENCE_ANSWER : String :=
  "I don't have enough grounded evidence in this document to answer that confidently."

/-- `_normalize_token`: lowercase and drop non-alphanumeric characters. -/
def normalize_token (token : String) : String :=
  String.mk ((token.toList.map Char.toLower).filter Char.isAlphanum)

/-- `_tokenize_question_terms`: alphanumeric tokens of the lowered text,
normalized, kept when non-empty, of length `≥ 3` and not stopwords.  Python
returns a `set`; the embedding keeps a duplicate-free list (the callers only
iterate the set and test membership, so the order never matters). -/
def tokenize_question_terms (question : String) : List String :=
  (((findAlnumTokens question).map normalize_token).filter
    (fun token => ¬ token = "" ∧ token.length ≥ 3 ∧ token ∉ QUESTION_STOPWORDS)).dedup

/-- The filtered token set both overlap scorers build from a candidate line:
normalized alphanumeric tokens of the line that are non-empty, of length
`≥ 3` and not stopwords (`normalized_tokens` in `_keyword_overlap_count` and
`_keyword_overlap_weighted_score`). -/
def normalizedLineTokens (text : String) : List String :=
  ((((findAlnumTokens text).map normalize_token).dedup).filter
    (fun token => ¬ token = "" ∧ token.length ≥ 3 ∧ token ∉ QUESTION_STOPWORDS))

/-- The match rule of both overlap scorers: `term == t ∨ term in t ∨ t in term`
for some line token `t`. -/
def termMatchesTokens (tokens : List String) (term : String) : Bool :=
  tokens.any (fun token => term = token || strContains term token || strContains token term)

/-- `_keyword_overlap_count` restated over an explicit token set: the number
of terms matched by some token of the set. -/
def overlapCountOnTokens (tokens : List String) (terms : List String) : Nat :=
  terms.countP (termMatchesTokens tokens)

/-- The per-term weight of `_keyword_overlap_weighted_score`:
`1.0 + min(0.6, max(0.0, (len(term) - 4) * 0.08))`. -/
def termWeight (term : String) : ℚ :=
  1 + min 0.6 (max 0 (((term.length : Int) - 4 : ℚ) * 0.08))

/-- `_keyword_overlap_weighted_score` restated over an explicit token set. -/
def weightedScoreOnTokens (tokens : List String) (terms : List String) : ℚ :=
  terms.foldl
    (fun score term =>
      if term = "" then score
      else if termMatchesTokens tokens term then score + termWeight term
      else score)
    0

/-- `_keyword_overlap_count` from `qa.py`. -/
def keyword_overlap_count (text : String) (question_terms : List String) : Nat :=
  if question_terms.isEmpty then 0
  else
    let normalized_tokens := normalizedLineTokens text
    if normalized_tokens.isEmpty then 0
    else overlapCountOnTokens normalized_tokens question_terms

/-- `_keyword_overlap_weighted_score` from `qa.py`. -/
def keyword_overlap_weighted_score (text : String) (terms : List String) : ℚ :=
  if terms.isEmpty then 0
  else
    let normalized_tokens := normalizedLineTokens text
    if normalized_tokens.isEmpty then 0
    else weightedScoreOnTokens normalized_tokens terms

/-- `_normalize_evidence_weights` from `qa.py`. -/
def normalize_evidence_weights (question_weight answer_weight : ℚ) : ℚ × ℚ :=
  let q := max 0 question_weight
  let a := max 0 answer_weight
  let total := q + a
  if total ≤ 0 then (0.2, 0.8) else (q / total, a / total)

/-- `_answer_is_uncertain` from `qa.py`. -/
def answer_is_uncertain (answer : String) : Bool :=
  let lowered := lowerStr answer
  ["not enough evidence", "cannot determine", "can't determine", "insufficient",
   "uncertain", "not clearly supported"].any (fun marker => strContains marker lowered)

/-- `_question_targets_signer_evidence` from `qa.py`. -/
def question_targets_signer_evidence (question : String) : Bool :=
  let lowered := lowerStr question
  strContains "signed" lowered || strContains "signature" lowered ||
    strContains "who signed" lowered

/-- `_operational_line_penalty` from `qa.py`. -/
def operational_line_penalty (text : String) : ℚ :=
  let lowered := lowerStr text
  let penalty : ℚ := if strContains "ordering doctor" lowered then 1.35 else 0
  let markers : List (String × ℚ) :=
    [("order source", 1.00), ("order receive", 1.00), ("order continued", 0.95),
     ("order acknowledged", 0.95), ("order enter", 0.90), ("order from set", 0.85),
     ("in pom", 0.85), ("order's status changed", 0.75)]
  markers.foldl
    (fun pen m => if strContains m.1 lowered then pen + m.2 else pen) penalty

/-! ### `difflib.SequenceMatcher` (no junk: `isjunk=None`, and every second
sequence passed by `qa.py` is far below the autojunk threshold of 200) -/

/-- Lookup in the running `j2len` association list of `find_longest_match`
(Python `j2len.get(j, 0)`). -/
def j2lenGet (m : List (Nat × Nat)) (j : Nat) : Nat :=
  ((m.find? (fun p => p.1 = j)).map (fun p => p.2)).getD 0

/-- One row of the `find_longest_match` dynamic program: process `a[i] = c`
against every position `j` of `c` in `b` within `[blo, bhi)`, returning the
new `j2len` and the updated `(besti, bestj, bestsize)`. -/
def flmRow (b : List Char) (blo bhi : Nat) (c : Char) (i : Nat)
    (j2len : List (Nat × Nat)) (best : Nat × Nat × Nat) :
    List (Nat × Nat) × (Nat × Nat × Nat) :=
  ((List.range bhi).filter (fun j => blo ≤ j ∧ b.get? j = some c)).foldl
    (fun acc j =>
      let prev := if j = 0 then 0 else j2lenGet j2len (j - 1)
      let k := prev + 1
      let best' :=
        if k > acc.2.2.2 then (i + 1 - k, j + 1 - k, k) else acc.2
      ((j, k) :: acc.1, best'))
    ([], best)

/-- Backward extension of the best block (`while besti > alo and bestj > blo
and a[besti-1] == b[bestj-1]`; the junk-aware variants never fire with
`isjunk=None`). -/
def flmExtendBack (a b : List Char) (alo blo : Nat) :
    Nat → Nat × Nat × Nat → Nat × Nat × Nat
  | 0, best => best
  | fuel + 1, (besti, bestj, bestsize) =>
      if alo < besti ∧ blo < bestj ∧ (a.get? (besti - 1)).isSome ∧
          a.get? (besti - 1) = b.get? (bestj - 1) then
        flmExtendBack a b alo blo fuel (besti - 1, bestj - 1, bestsize + 1)
      else (besti, bestj, bestsize)

/-- Forward extension of the best block (`while besti+bestsize < ahi ...`). -/
def flmExtendFwd (a b : List Char) (ahi bhi besti bestj : Nat) :
    Nat → Nat → Nat
  | bestsize, 0 => bestsize
  | bestsize, fuel + 1 =>
      if besti + bestsize < ahi ∧ bestj + bestsize < bhi ∧
          (a.get? (besti + bestsize)).isSome ∧
          a.get? (besti + bestsize) = b.get? (bestj + bestsize) then
        flmExtendFwd a b ahi bhi besti bestj (bestsize + 1) fuel
      else bestsize

/-- `SequenceMatcher.find_longest_match` on `a[alo:ahi]` and `b[blo:bhi]`. -/
def findLongestMatch (a b : List Char) (alo ahi blo bhi : Nat) : Nat × Nat × Nat :=
  let dp :=
    (((List.range ahi).filter (fun i => alo ≤ i)).foldl
      (fun (acc : List (Nat × Nat) × (Nat × Nat × Nat)) i =>
        match a.get? i with
        | some c => flmRow b blo bhi c i acc.1 acc.2
        | none => acc)
      ([], (alo, blo, 0))).2
  let back := flmExtendBack a b alo blo dp.1 dp
  (back.1, back.2.1,
    flmExtendFwd a b ahi bhi back.1 back.2.1 back.2.2 (ahi - (back.1 + back.2.2)))

/-- Total size of the matching blocks of `SequenceMatcher.get_matching_blocks`
(the recursion splits around each longest match; order is irrelevant for the
sum `ratio` uses). -/
def matchingBlocksSum (a b : List Char) : Nat → Nat → Nat → Nat → Nat → Nat
  | 0, _, _, _, _ => 0
  | fuel + 1, alo, ahi, blo, bhi =>
      let m := findLongestMatch a b alo ahi blo bhi
      let i := m.1
      let j := m.2.1
      let k := m.2.2
      if k = 0 then 0
      else
        k + (if alo < i ∧ blo < j then matchingBlocksSum a b fuel alo i blo j else 0)
          + (if i + k < ahi ∧ j + k < bhi then matchingBlocksSum a b fuel (i + k) ahi (j + k) bhi else 0)

/-- `SequenceMatcher(None, a, b).ratio() = 2·M / (len(a)+len(b))` with `M`
the total matched size (`1.0` when both are empty, as in `difflib`). -/
def sequenceMatcher_ratio (aS bS : String) : ℚ :=
  let a := aS.toList
  let b := bS.toList
  let total := a.length + b.length
  if total = 0 then 1
  else (2 * (matchingBlocksSum a b (total + 1) 0 a.length 0 b.length) : ℚ) / (total : ℚ)

/-- `_signature_line_signal` from `qa.py`.  The `continue` after the
`startswith("sig")` hit skips both similarity tests for that token. -/
def signature_line_signal (text : String) : ℚ :=
  let lowered := " " ++ lowerStr text ++ " "
  let tokens := (((findAlnumTokens text).map normalize_token).filter
    (fun token => token.length ≥ 4))
  let score : ℚ :=
    if strContains " signed by " lowered || strContains " signature " lowered then
      max 0 2 else 0
  let score := tokens.foldl
    (fun sc token =>
      if token.startsWith "sig" then max sc 1.6
      else
        let sc := if token.startsWith "s" ∧ sequenceMatcher_ratio token "signed" ≥ 0.60
          then max sc 1.35 else sc
        if sequenceMatcher_ratio token "electronic" ≥ 0.68 then max sc 1.15 else sc)
    score
  if score > 0 ∧ strContains " by " lowered then score + 0.25 else score

/-! ### Evidence data model (`app/schemas/qa.py`, `qa.py` dataclasses) -/

/-- `BBox` from `app/schemas/qa.py`. -/
structure BBox where
  x1 : ℚ
  y1 : ℚ
  x2 : ℚ
  y2 : ℚ
deriving DecidableEq

/-- `EvidenceItem` from `app/schemas/qa.py`. -/
structure EvidenceItem where
  page : Int
  text : String
  bbox : BBox
  page_width : Option ℚ
  page_height : Option ℚ
deriving DecidableEq

/-- `AskQuestionResponse` from `app/schemas/qa.py`. -/
structure AskQuestionResponse where
  answer : String
  evidence : List EvidenceItem
deriving DecidableEq

/-- `ScoredEvidenceItem` from `qa.py`. -/
structure ScoredEvidenceItem where
  item : EvidenceItem
  score : ℚ
deriving DecidableEq

/-- `EvidenceLineCandidate` from `qa.py`. -/
structure EvidenceLineCandidate where
  text : String
  spans : List SpanR
  y1 : ℚ
  y2 : ℚ
  weighted_score : ℚ
  answer_overlap : Nat
  question_overlap : Nat
  signature_signal : ℚ
deriving DecidableEq

/-- Lexicographic `≤` on equal-length rational key lists (Python tuple keys). -/
def qLexLe : List ℚ → List ℚ → Bool
  | [], _ => true
  | _ :: _, [] => true
  | a :: as, b :: bs => if a < b then true else if b < a then false else qLexLe as bs

/-- Minimum of a rational list (callers guarantee non-emptiness). -/
def qListMin : List ℚ → ℚ
  | [] => 0
  | x :: xs => xs.foldl min x

/-- Maximum of a rational list (callers guarantee non-emptiness). -/
def qListMax : List ℚ → ℚ
  | [] => 0
  | x :: xs => xs.foldl max x

/-! ### Line grouping (`_group_spans_into_lines`, `_line_merge_tolerance`) -/

/-- Element lookup with default 0 (indices stay in range at every call site). -/
def qListGet (l : List ℚ) (i : Nat) : ℚ :=
  (l.get? i).getD 0

/-- `_line_merge_tolerance`: 0.65 times the median of the clamped span
heights, clamped to `[2.5, 10.0]`. -/
def line_merge_tolerance (spans : List SpanR) : ℚ :=
  if spans.isEmpty then 3.0
  else
    let heights := (spans.map (fun span => max 0.5 (span.y2 - span.y1))).mergeSort
      (fun a b => decide (a ≤ b))
    let mid := heights.length / 2
    let median_height :=
      if heights.length % 2 = 0 then (qListGet heights (mid - 1) + qListGet heights mid) / 2
      else qListGet heights mid
    min 10.0 (max 2.5 (median_height * 0.65))

/-- Sort key of `_group_spans_into_lines`: `((y1+y2)/2, x1)` ascending. -/
def spanSortLe (s t : SpanR) : Bool :=
  qLexLe [(s.y1 + s.y2) / 2, s.x1] [(t.y1 + t.y2) / 2, t.x1]

/-- `_group_spans_into_lines`: sweep the sorted spans, appending to the last
open group while the vertical middle is within tolerance of the group's
running-mean center.  The accumulator keeps the open group at its head. -/
def group_spans_into_lines (spans : List SpanR) : List (List SpanR) :=
  if spans.isEmpty then []
  else
    let ordered := spans.mergeSort spanSortLe
    let tolerance := line_merge_tolerance ordered
    let groups := ordered.foldl
      (fun (acc : List (ℚ × List SpanR)) span =>
        let center_y := (span.y1 + span.y2) / 2
        match acc with
        | [] => [(center_y, [span])]
        | (center, g) :: rest =>
            if |center_y - center| ≤ tolerance then
              let g' := g ++ [span]
              let center' := (g'.map (fun s => (s.y1 + s.y2) / 2)).sum / (g'.length : ℚ)
              (center', g') :: rest
            else (center_y, [span]) :: (center, g) :: rest)
      []
    (groups.map (fun g => g.2)).reverse

/-! ### Per-line candidates, context re-rank and per-page selection
(`_chunk_evidence_items`, `_rank_line_candidates_with_context`,
`_build_line_evidence_item`, `_expand_line_indices_from_seeds`) -/

/-- The per-page candidate construction loop of `_chunk_evidence_items`
(lines with empty excerpt or degenerate union box are skipped). -/
def page_line_candidates (prefer_signature_lines : Bool)
    (question_terms answer_terms : List String)
    (question_weight answer_weight : ℚ) (spans : List SpanR) :
    List EvidenceLineCandidate :=
  (group_spans_into_lines spans).filterMap (fun line_spans =>
    let ordered_line := line_spans.mergeSort (fun s t => decide (s.x1 ≤ t.x1))
    let excerpt := stripStr (String.intercalate " " (ordered_line.map (fun s => s.text)))
    if excerpt = "" then none
    else
      let x1 := qListMin (ordered_line.map (fun s => s.x1))
      let y1 := qListMin (ordered_line.map (fun s => s.y1))
      let x2 := qListMax (ordered_line.map (fun s => s.x2))
      let y2 := qListMax (ordered_line.map (fun s => s.y2))
      if x2 ≤ x1 ∨ y2 ≤ y1 then none
      else
        let question_overlap := keyword_overlap_count excerpt question_terms
        let answer_overlap := keyword_overlap_count excerpt answer_terms
        let question_score := keyword_overlap_weighted_score excerpt question_terms
        let answer_score := keyword_overlap_weighted_score excerpt answer_terms
        let weighted_score := question_score * question_weight + answer_score * answer_weight
        let signature_signal : ℚ :=
          if prefer_signature_lines then signature_line_signal excerpt else 0
        let weighted_score :=
          if prefer_signature_lines then
            weighted_score + signature_signal * 1.35 - operational_line_penalty excerpt
          else weighted_score
        some { text := excerpt, spans := ordered_line, y1 := y1, y2 := y2,
               weighted_score := weighted_score, answer_overlap := answer_overlap,
               question_overlap := question_overlap, signature_signal := signature_signal })

/-- Sort key of `_rank_line_candidates_with_context`:
`(-final, -signature, -weighted, -(answer_overlap+question_overlap), y1)`. -/
def rankSortLe (a b : ℚ × Nat × EvidenceLineCandidate) : Bool :=
  qLexLe
    [-a.1, -a.2.2.signature_signal, -a.2.2.weighted_score,
     -((a.2.2.answer_overlap + a.2.2.question_overlap : Nat) : ℚ), a.2.2.y1]
    [-b.1, -b.2.2.signature_signal, -b.2.2.weighted_score,
     -((b.2.2.answer_overlap + b.2.2.question_overlap : Nat) : ℚ), b.2.2.y1]

/-- `_rank_line_candidates_with_context` from `qa.py`. -/
def rank_line_candidates_with_context (candidates : List EvidenceLineCandidate)
    (question_terms answer_terms : List String) (question_weight answer_weight : ℚ) :
    List (ℚ × Nat × EvidenceLineCandidate) :=
  if candidates.isEmpty then []
  else
    let n := candidates.length
    let ranked := candidates.enum.map (fun e =>
      let idx := e.1
      let candidate := e.2
      let start := idx - CONTEXT_WINDOW_RADIUS
      let stop := min n (idx + CONTEXT_WINDOW_RADIUS + 1)
      let window := List.range' start (stop - start)
      let context_text := String.intercalate " "
        ((window.filterMap (fun j => candidates.get? j)).map (fun c => c.text))
      let context_question := keyword_overlap_weighted_score context_text question_terms
      let context_answer := keyword_overlap_weighted_score context_text answer_terms
      let context_score := context_question * question_weight + context_answer * answer_weight
      let neighbor_overlap := (window.filter (fun j => j ≠ idx)).foldl
        (fun acc j =>
          acc + min 2 (((candidates.get? j).map
            (fun nb => ((nb.answer_overlap + nb.question_overlap : Nat) : ℚ))).getD 0))
        0
      let final_score := candidate.weighted_score * 0.72 + context_score * 0.28 +
        neighbor_overlap * 0.08 + candidate.signature_signal * 0.12
      (final_score, idx, candidate))
    ranked.mergeSort rankSortLe

/-- `score_by_index.get(idx, default)` over the ranked triples. -/
def scoreByIndex (ranked : List (ℚ × Nat × EvidenceLineCandidate)) (idx : Nat)
    (default : ℚ) : ℚ :=
  ((ranked.find? (fun e => e.2.1 = idx)).map (fun e => e.1)).getD default

/-- `_build_line_evidence_item` from `qa.py`. -/
def build_line_evidence_item (page_number : Int) (page_width page_height : Option ℚ)
    (candidate : EvidenceLineCandidate) : Option EvidenceItem :=
  if candidate.spans.isEmpty then none
  else
    let x1 := qListMin (candidate.spans.map (fun s => s.x1))
    let y1 := qListMin (candidate.spans.map (fun s => s.y1))
    let x2 := qListMax (candidate.spans.map (fun s => s.x2))
    let y2 := qListMax (candidate.spans.map (fun s => s.y2))
    if x2 ≤ x1 ∨ y2 ≤ y1 then none
    else
      let text := stripStr candidate.text
      if text = "" then none
      else some { page := page_number, text := text,
                  bbox := { x1 := x1, y1 := y1, x2 := x2, y2 := y2 },
                  page_width := page_width, page_height := page_height }

/-- `is_relevant` from `_expand_line_indices_from_seeds`. -/
def lineIsRelevant (candidates : List EvidenceLineCandidate) (idx : Nat) : Bool :=
  match candidates.get? idx with
  | none => false
  | some candidate =>
      (candidate.answer_overlap + candidate.question_overlap > 0) ||
      (candidate.weighted_score ≥ 0.75) ||
      (candidate.signature_signal ≥ SIGNATURE_SIGNAL_THRESHOLD)

/-- `add_idx` from `_expand_line_indices_from_seeds`: append when in range,
fresh and under capacity. -/
def lineAddIdx (n max_lines : Nat) (sel : List Nat) (idx : Nat) : List Nat :=
  if idx < n ∧ idx ∉ sel ∧ sel.length < max_lines then sel ++ [idx] else sel

/-- `_expand_line_indices_from_seeds` from `qa.py`.  The Python `break`s
only short-circuit iterations in which `add_idx` would refuse anyway (it
guards on capacity), so plain folds are behaviourally identical. -/
def expand_line_indices_from_seeds
    (ranked_lines : List (ℚ × Nat × EvidenceLineCandidate))
    (candidates : List EvidenceLineCandidate)
    (seed_indices : List Nat) (max_lines : Nat) : List Nat :=
  if candidates.isEmpty ∨ max_lines = 0 then []
  else
    let n := candidates.length
    let sel := seed_indices.foldl
      (fun sel seed =>
        let sel := lineAddIdx n max_lines sel seed
        let sel := if 1 ≤ seed ∧ seed - 1 < n ∧ lineIsRelevant candidates (seed - 1) then
            lineAddIdx n max_lines sel (seed - 1) else sel
        if seed + 1 < n ∧ lineIsRelevant candidates (seed + 1) then
          lineAddIdx n max_lines sel (seed + 1) else sel)
      []
    let sel := if sel.length < max_lines then
        ranked_lines.foldl
          (fun sel e => if lineIsRelevant candidates e.2.1 then lineAddIdx n max_lines sel e.2.1 else sel)
          sel
      else sel
    let sel := if sel.isEmpty then
        match ranked_lines with
        | [] => sel
        | e :: _ => lineAddIdx n max_lines sel e.2.1
      else sel
    let sel := if sel.length < max_lines then
        ranked_lines.foldl (fun sel e => lineAddIdx n max_lines sel e.2.1) sel
      else sel
    sel.mergeSort (fun i j =>
      decide (((candidates.get? i).map (fun c => c.y1)).getD 0 ≤
        ((candidates.get? j).map (fun c => c.y1)).getD 0))

/-- Build the scored items for the chosen line indices of one page (tail of
the per-page loop in `_chunk_evidence_items`). -/
def pageItemsFromIndices (ranked_lines : List (ℚ × Nat × EvidenceLineCandidate))
    (line_candidates : List EvidenceLineCandidate) (page_number : Int)
    (page_width page_height : Option ℚ) (selected_indices : List Nat) :
    List ScoredEvidenceItem :=
  selected_indices.filterMap (fun idx =>
    (line_candidates.get? idx).bind (fun candidate =>
      (build_line_evidence_item page_number page_width page_height candidate).map
        (fun item => ({ item := item, score := scoreByIndex ranked_lines idx candidate.weighted_score }
          : ScoredEvidenceItem))))

/-- One page of `_chunk_evidence_items`: group the page's spans into lines,
score and rank them, then select (signature mode keeps exactly the lines at
or above the signature threshold; normal mode seeds and expands). -/
def chunk_evidence_items_page (question_terms answer_terms : List String)
    (min_keyword_overlap : Int) (question_weight answer_weight : ℚ)
    (prefer_signature_lines : Bool) (page_number : Int)
    (page_width page_height : Option ℚ) (spans : List SpanR) :
    List ScoredEvidenceItem :=
  if spans.isEmpty then []
  else
    let line_candidates := page_line_candidates prefer_signature_lines
      question_terms answer_terms question_weight answer_weight spans
    if line_candidates.isEmpty then []
    else
      let ranked_lines := rank_line_candidates_with_context line_candidates
        question_terms answer_terms question_weight answer_weight
      if prefer_signature_lines then
        let signature_selected := ranked_lines.filter
          (fun e => decide (e.2.2.signature_signal ≥ SIGNATURE_SIGNAL_THRESHOLD))
        if signature_selected.isEmpty then []
        else
          let selected_indices := ((signature_selected.map (fun e => e.2.1)).dedup).mergeSort
            (fun i j =>
              decide (((line_candidates.get? i).map (fun c => c.y1)).getD 0 ≤
                ((line_candidates.get? j).map (fun c => c.y1)).getD 0))
          pageItemsFromIndices ranked_lines line_candidates page_number
            page_width page_height selected_indices
      else
        let selected :=
          if ¬ question_terms.isEmpty ∨ ¬ answer_terms.isEmpty then
            let s := ranked_lines.filter (fun e =>
              decide (((e.2.2.answer_overlap + e.2.2.question_overlap : Nat) : Int) ≥ min_keyword_overlap))
            if s.isEmpty then ranked_lines.take 1 else s
          else ranked_lines.take 1
        let seed_indices := (selected.take 2).map (fun e => e.2.1)
        let selected_indices := expand_line_indices_from_seeds ranked_lines
          line_candidates seed_indices line_candidates.length
        pageItemsFromIndices ranked_lines line_candidates page_number
          page_width page_height selected_indices

/-! ### Global evidence filtering (`_filter_scored_evidence`) and the display
order applied in `_build_evidence` -/

/-- Sort key of `_filter_scored_evidence`: `(-score, page, y1, x1)`. -/
def filterSortLe (a b : ScoredEvidenceItem) : Bool :=
  qLexLe [-a.score, (a.item.page : ℚ), a.item.bbox.y1, a.item.bbox.x1]
    [-b.score, (b.item.page : ℚ), b.item.bbox.y1, b.item.bbox.x1]

/-- Display sort key from `_build_evidence`: `(page, y1, x1, -score)`. -/
def displaySortLe (a b : ScoredEvidenceItem) : Bool :=
  qLexLe [(a.item.page : ℚ), a.item.bbox.y1, a.item.bbox.x1, -a.score]
    [(b.item.page : ℚ), b.item.bbox.y1, b.item.bbox.x1, -b.score]

/-- The greedy walk of `_filter_scored_evidence`: keep items in score order,
stopping at the floor or at a relative drop (the ratio test is guarded by
`previous_score > 0` as in the source). -/
def evidenceWalk (score_floor drop_ratio_stop : ℚ) :
    ℚ → List ScoredEvidenceItem → List ScoredEvidenceItem
  | _, [] => []
  | previous_score, entry :: rest =>
      if entry.score < score_floor then []
      else if 0 < previous_score ∧ entry.score / previous_score < drop_ratio_stop then []
      else entry :: evidenceWalk score_floor drop_ratio_stop entry.score rest

/-- `_filter_scored_evidence` from `qa.py`. -/
def filter_scored_evidence (scored_items : List ScoredEvidenceItem)
    (settings : Settings) : List ScoredEvidenceItem :=
  if scored_items.isEmpty then []
  else
    match scored_items.mergeSort filterSortLe with
    | [] => []
    | top :: rest =>
        let best_score := top.score
        if best_score ≤ 0 then [top]
        else
          let relative_threshold := min 1 (max 0 settings.evidence_relative_score_threshold)
          let drop_ratio_stop := min 1 (max 0 settings.evidence_drop_ratio_stop)
          let absolute_threshold := max 0 settings.evidence_min_absolute_score
          let score_floor := max absolute_threshold (best_score * relative_threshold)
          let selected := top :: evidenceWalk score_floor drop_ratio_stop best_score rest
          if settings.answer_max_evidence_items > 0 then
            selected.take settings.answer_max_evidence_items.toNat
          else selected

/-- The display re-sort `_build_evidence` applies to the filtered survivors. -/
def order_evidence_for_display (entries : List ScoredEvidenceItem) :
    List ScoredEvidenceItem :=
  entries.mergeSort displaySortLe

/-- The greedy walk as the specification words it: stop as soon as an item's
score is below the floor or the ratio to the previously kept score is below
the drop threshold. -/
def specEvidenceWalk (score_floor drop_ratio_stop : ℚ) :
    ℚ → List ScoredEvidenceItem → List ScoredEvidenceItem
  | _, [] => []
  | prev, entry :: rest =>
      if entry.score < score_floor ∨ entry.score / prev < drop_ratio_stop then []
      else entry :: specEvidenceWalk score_floor drop_ratio_stop entry.score rest

/-- Global evidence filtering as the specification describes it, at the
default thresholds `(0.20, 0.60, 0.72)`: sort by descending score (ties as
the code's deterministic key), set `floor = max(0.20, best·0.60)`, walk in
score order stopping below the floor or below the drop ratio, truncate to
`max_items` when positive, always keep the top-1, and re-sort the survivors
for display by `(page, y1, x1, -score)`. -/
def specFilterEvidence (max_items : Int) (items : List ScoredEvidenceItem) :
    List ScoredEvidenceItem :=
  match items.mergeSort filterSortLe with
  | [] => []
  | top :: rest =>
      let score_floor : ℚ := max 0.20 (top.score * 0.60)
      let kept := top :: specEvidenceWalk score_floor 0.72 top.score rest
      let kept := if max_items > 0 then kept.take max_items.toNat else kept
      kept.mergeSort displaySortLe

/-! ### The `ask_question` orchestration (`qa.py`), with the database session
and the OpenAI client as oracle fields of a world record -/

/-- A retrieved chunk row (`RetrievedChunk` dataclass in `qa.py`); chunk
UUIDs are abstracted to `Nat`. -/
structure RetrievedChunk where
  id : Nat
  chunk_index : Int
  text : String
  page_start : Option Int
  page_end : Option Int
  span_start_id : Option Int
  span_end_id : Option Int
  distance : Option ℚ
deriving DecidableEq

/-- A stored span row joined with its page number, as
`_validate_evidence_mapping` queries it. -/
structure StoredSpan where
  page_number : Int
  x1 : ℚ
  y1 : ℚ
  x2 : ℚ
  y2 : ℚ
deriving DecidableEq

/-- The QA exception hierarchy of `qa.py` (plus the unhandled Python errors
the orchestration could raise). -/
inductive QAErr where
  | invalidQuestion : String → QAErr
  | documentNotFound : QAErr
  | documentNotReady : String → QAErr
  | openAIConfiguration : String → QAErr
  | qaError : String → QAErr
  | pyIndexError : QAErr
deriving DecidableEq

/-- The HTTP status `ask_document_question` in `app/api/routes/documents.py`
maps each raised error to (unhandled Python exceptions reach the generic
500 handler of `app/core/errors.py`; the not-found case is raised as 404 by
the route itself before `ask_question` runs). -/
def httpStatusOfQAErr : QAErr → Nat
  | .invalidQuestion _ => 400
  | .documentNotFound => 404
  | .documentNotReady _ => 409
  | .openAIConfiguration _ => 500
  | .qaError _ => 500
  | .pyIndexError => 500

/-- `_insufficient_response` from `qa.py`. -/
def insufficientResponse : AskQuestionResponse :=
  { answer := INSUFFICIENT_EVIDENCE_ANSWER, evidence := [] }

/-- `_has_sufficient_retrieval_confidence` from `qa.py`. -/
def has_sufficient_retrieval_confidence (settings : Settings)
    (chunks : List RetrievedChunk) : Bool :=
  if chunks.isEmpty then false
  else
    match chunks.filterMap (fun c => c.distance) with
    | [] => false
    | d :: ds => decide (ds.foldl min d ≤ settings.retrieval_max_vector_distance)

/-- One step of the citation-extraction loop of `_generate_answer`: skip a
non-parsing entry, append a fresh id, drop a duplicate. -/
def citeFold (acc : List Nat) (entry : Option Nat) : List Nat :=
  match entry with
  | none => acc
  | some parsed_id => if parsed_id ∈ acc then acc else acc ++ [parsed_id]

/-- The citation-extraction tail of `_generate_answer`: walk the parsed
`citations` entries (an entry is `none` when it is not a dict, has no
`chunk_id`, or the id fails UUID parsing) keeping first occurrences. -/
def extractCitations (raw : List (Option Nat)) : List Nat :=
  raw.foldl citeFold []

/-- `cited_lookup[chunk_id]`: the dict built over the context chunks keeps
the last chunk for a repeated id. -/
def lookupChunk (chunks : List RetrievedChunk) (chunk_id : Nat) : Option RetrievedChunk :=
  (chunks.filter (fun c => c.id = chunk_id)).getLast?

/-- The `selected_chunks` loop of `ask_question`: resolve each valid
citation and keep first occurrences of the resolved chunks. -/
def selectCitedChunks (valid_citations : List Nat) (context_chunks : List RetrievedChunk) :
    List RetrievedChunk :=
  valid_citations.foldl
    (fun sel chunk_id =>
      match lookupChunk context_chunks chunk_id with
      | some chunk => if chunk ∈ sel then sel else sel ++ [chunk]
      | none => sel)
    []

/-- `_validate_evidence_mapping`: every evidence box must be non-degenerate
and strictly overlap some stored span on its page. -/
def validate_evidence_mapping (spans : List StoredSpan) (evidence : List EvidenceItem) : Bool :=
  evidence.all (fun item =>
    decide (item.bbox.x1 < item.bbox.x2 ∧ item.bbox.y1 < item.bbox.y2 ∧
      ∃ s ∈ spans, s.page_number = item.page ∧ s.x2 > item.bbox.x1 ∧
        s.x1 < item.bbox.x2 ∧ s.y2 > item.bbox.y1 ∧ s.y1 < item.bbox.y2))

/-- The world `ask_question` runs against: the request, the document row,
the settings, and the outcomes of the effectful calls.  `embedBackfill`
summarizes `_ensure_chunk_embeddings` (error = any provider exception),
`retrieval` summarizes `_retrieve_chunks`, `generation` summarizes the
provider side of `_generate_answer` (the raw answer string and the parsed
citation entries), `buildEvidence` summarizes the database-reading
`_build_evidence` (question → answer → cited chunks → items), and `spans`
holds the document's stored spans for `_validate_evidence_mapping`. -/
structure QAWorld where
  question : String
  documentStatus : Option String
  settings : Settings
  embedBackfill : Except String Unit
  retrieval : Except String (List RetrievedChunk)
  generation : Except String (String × List (Option Nat))
  buildEvidence : String → String → List RetrievedChunk → List EvidenceItem
  spans : List StoredSpan

/-- Tail of `ask_question` from the `selected_chunks` on: build evidence,
gate on the minimum count and on span mapping. -/
def qaFinalize (w : QAWorld) (clean_question answer : String)
    (selected_chunks : List RetrievedChunk) : Except QAErr AskQuestionResponse :=
  let evidence := w.buildEvidence clean_question answer selected_chunks
  if ((evidence.length : Int) < w.settings.minimum_evidence_items) then
    .ok insufficientResponse
  else if ¬ validate_evidence_mapping w.spans evidence then
    .ok insufficientResponse
  else
    .ok { answer := answer, evidence := evidence }

/-- `ask_question` after the citation fallback: the empty-answer and
uncertainty gates, chunk resolution, and the finalization tail. -/
def qaAfterCitations (w : QAWorld) (clean_question answer : String)
    (valid_citations : List Nat) (context_chunks : List RetrievedChunk) :
    Except QAErr AskQuestionResponse :=
  if answer = "" then .ok insufficientResponse
  else if answer_is_uncertain answer then .ok insufficientResponse
  else
    let selected_chunks := selectCitedChunks valid_citations context_chunks
    if selected_chunks.isEmpty then .ok insufficientResponse
    else qaFinalize w clean_question answer selected_chunks

/-- `ask_question` after `_generate_answer` returned: citation validation,
the `require_llm_citations` gate and the top-1 fallback
(`context_chunks[0]` raises `IndexError` on an empty context). -/
def qaAfterGeneration (w : QAWorld) (clean_question : String)
    (context_chunks : List RetrievedChunk) (answer : String)
    (cited_chunk_ids : List Nat) : Except QAErr AskQuestionResponse :=
  let valid_citations := cited_chunk_ids.filter
    (fun chunk_id => (lookupChunk context_chunks chunk_id).isSome)
  if w.settings.require_llm_citations ∧ valid_citations.isEmpty then
    .ok insufficientResponse
  else
    match (if valid_citations.isEmpty then
        (context_chunks.head?).map (fun c => [c.id])
      else some valid_citations) with
    | none => .error .pyIndexError
    | some valid_citations =>
        qaAfterCitations w clean_question answer valid_citations context_chunks

/-- `ask_question` from `qa.py`: the full gate pipeline.  A `.error` result
is a raised exception; `.ok` is a returned response. -/
def ask_question (w : QAWorld) : Except QAErr AskQuestionResponse :=
  let clean_question := stripStr w.question
  if clean_question = "" then .error (.invalidQuestion "Question cannot be empty.")
  else
    match w.documentStatus with
    | none => .error .documentNotFound
    | some status =>
      if status ≠ "ready" then
        .error (.documentNotReady "Document is not ready for question answering.")
      else if (w.settings.openai_api_key.getD "") = "" then
        .error (.openAIConfiguration "OPENAI_API_KEY is not configured.")
      else if w.settings.openai_embedding_dimensions ≠ 1536 then
        .error (.openAIConfiguration "OPENAI_EMBEDDING_DIMENSIONS must be 1536 for current schema.")
      else
        match w.embedBackfill with
        | .error exc => .error (.qaError ("Failed to prepare chunk embeddings: " ++ exc))
        | .ok _ =>
          match w.retrieval with
          | .error _ => .ok insufficientResponse
          | .ok retrieved =>
            if retrieved.isEmpty then .ok insufficientResponse
            else if ¬ has_sufficient_retrieval_confidence w.settings retrieved then
              .ok insufficientResponse
            else
              let context_chunks := pySlice w.settings.retrieval_max_context_chunks retrieved
              match w.generation with
              | .error exc => .error (.qaError ("Failed to generate answer: " ++ exc))
              | .ok gen =>
                  let answer := stripStr gen.1
                  let cited_chunk_ids := extractCitations gen.2
                  qaAfterGeneration w clean_question context_chunks answer cited_chunk_ids

/-! ### Ingestion transaction model (`process_document_metadata`) -/

/-- The `documents` row fields the pipeline writes
(`app/models/document.py`). -/
structure DocRow where
  status : String
  total_pages : Option Int
  page_width : Option ℚ
  page_height : Option ℚ
  error_message : Option String
deriving DecidableEq

/-- The page/span/chunk rows of one document, as one record. -/
structure DocumentRows where
  pages : List (Int × Option ℚ × Option ℚ)
  spans : List (Int × Int × String)
  chunks : List (Int × String)
deriving DecidableEq

/-- The try-block of `process_document_metadata`, summarized: the row
operations it issues against the session workspace (the reset plus every
`db.add`), in order, and either the metadata of a fully processed document
or the exception message raised part-way. -/
structure IngestRun where
  ops : List (DocumentRows → DocumentRows)
  result : Except String (Int × ℚ × ℚ)

/-- `process_document_metadata` as a transition on `(document row, committed
rows)`:  the session applies `run.ops` to a workspace; `db.commit()`
publishes the workspace only on full success, while an exception triggers
`db.rollback()` (the workspace is discarded) followed by the status-only
error commit.  The function returns in both branches — the exception is
swallowed, matching the bare `except Exception` of the source. -/
def process_document_metadata (document : Option DocRow) (committed : DocumentRows)
    (run : IngestRun) : Option DocRow × DocumentRows :=
  match document with
  | none => (none, committed)
  | some _ =>
    let workspace := run.ops.foldl (fun rows op => op rows) committed
    match run.result with
    | .ok meta =>
        (some { status := "ready", total_pages := some meta.1,
                page_width := some meta.2.1, page_height := some meta.2.2,
                error_message := none },
         workspace)
    | .error exc =>
        (some { status := "error", total_pages := none, page_width := none,
                page_height := none,
                error_message := some ("Document processing failed: " ++ exc) },
         committed)

/-- The S3 scenario span: text of length 20 (45 identical spans on page 1). -/
def s3Span : SpanR :=
  { text := "aaaaaaaaaaaaaaaaaaaa", x1 := 0, y1 := 0, x2 := 1, y2 := 1 }

/-- The S3 scenario reading-order list: 45 spans of text length 20. -/
def s3SpanRefs : List (SpanR × Int) :=
  List.replicate 45 (s3Span, 1)

/-! ## Theorems -/

theorem qLexLe_total_bool (a b : List ℚ) : (qLexLe a b || qLexLe b a) = true := by
  induction a generalizing b with
  | nil => simp [qLexLe]
  | cons x xs ih =>
    cases b with
    | nil => simp [qLexLe]
    | cons y ys =>
      rcases lt_trichotomy x y with h | h | h
      · simp [qLexLe, h]
      · subst h
        simpa [qLexLe, lt_irrefl] using ih ys
      · simp [qLexLe, h, not_lt.mpr h.le, not_lt.mpr (le_refl x)]

theorem qLexLe_trans_eqlen (a b c : List ℚ) (hab : a.length = b.length)
    (hbc : b.length = c.length) (h₁ : qLexLe a b = true) (h₂ : qLexLe b c = true) :
    qLexLe a c = true := by
  induction a generalizing b c with
  | nil => simp [qLexLe]
  | cons x xs ih =>
    cases b with
    | nil => simp at hab
    | cons y ys =>
      cases c with
      | nil => simp at hbc
      | cons z zs =>
        simp only [qLexLe] at h₁ h₂ ⊢
        rcases lt_trichotomy x y with hxy | hxy | hxy
        · rcases lt_trichotomy y z with hyz | hyz | hyz
          · simp [hxy.trans hyz]
          · subst hyz; simp [hxy]
          · exfalso
            rw [if_neg (by exact not_lt.mpr hyz.le), if_pos hyz] at h₂
            exact Bool.false_ne_true h₂
        · subst hxy
          rcases lt_trichotomy x z with hyz | hyz | hyz
          · simp [hyz]
          · subst hyz
            rw [if_neg (lt_irrefl x), if_neg (lt_irrefl x)] at h₁ h₂ ⊢
            exact ih ys zs (by simpa using hab) (by simpa using hbc) h₁ h₂
          · exfalso
            rw [if_neg (by exact not_lt.mpr hyz.le), if_pos hyz] at h₂
            exact Bool.false_ne_true h₂
        · exfalso
          rw [if_neg (by exact not_lt.mpr hxy.le), if_pos hxy] at h₁
          exact Bool.false_ne_true h₁

theorem filterSortLe_trans (a b c : ScoredEvidenceItem)
    (h₁ : filterSortLe a b = true) (h₂ : filterSortLe b c = true) :
    filterSortLe a c = true :=
  qLexLe_trans_eqlen _ _ _ (by simp) (by simp) h₁ h₂

theorem filterSortLe_total (a b : ScoredEvidenceItem) :
    (filterSortLe a b || filterSortLe b a) = true :=
  qLexLe_total_bool _ _

theorem filterSortLe_score_le (a b : ScoredEvidenceItem)
    (h : filterSortLe a b = true) : b.score ≤ a.score := by
  simp only [filterSortLe, qLexLe] at h
  rcases lt_trichotomy (-a.score) (-b.score) with h1 | h1 | h1
  · linarith
  · linarith
  · rw [if_neg (by exact not_lt.mpr h1.le), if_pos h1] at h
    exact absurd h Bool.false_ne_true

theorem evidenceWalk_eq_spec (score_floor drop_ratio_stop : ℚ)
    (hfloor : 0 < score_floor) (l : List ScoredEvidenceItem) :
    ∀ prev : ℚ, 0 < prev →
      evidenceWalk score_floor drop_ratio_stop prev l =
        specEvidenceWalk score_floor drop_ratio_stop prev l := by
  induction l with
  | nil => intro prev _; rfl
  | cons x xs ih =>
    intro prev hprev
    by_cases h1 : x.score < score_floor
    · simp [evidenceWalk, specEvidenceWalk, h1]
    · by_cases h2 : x.score / prev < drop_ratio_stop
      · simp [evidenceWalk, specEvidenceWalk, h1, h2, hprev]
      · have hx : 0 < x.score := lt_of_lt_of_le hfloor (not_lt.mp h1)
        simp [evidenceWalk, specEvidenceWalk, h1, h2, hprev, ih x.score hx]

/-- C9: the per-page quality score is total for every configuration: the
word-count term divides by `max(1, ocr_trigger_min_words)`, so the
denominator is at least 1 even when the trigger is configured as 0 or
negative, and for every input the score is
`0.55·min(1, word_count/max(1, trigger)) + 0.45·alnum_ratio` (checked
concretely at trigger 0 and -5, where the denominator collapses to 1). -/
theorem word_quality_score_total_formula (word_count : Nat) (alnum_ratio : ℚ)
    (settings : Settings) :
    1 ≤ max 1 settings.ocr_trigger_min_words ∧
    word_quality_score (word_count, alnum_ratio) settings =
      0.55 * min 1 ((word_count : ℚ) / ((max 1 settings.ocr_trigger_min_words : Int) : ℚ)) +
        0.45 * alnum_ratio ∧
    word_quality_score (7, 1/2) { defaultSettings with ocr_trigger_min_words := 0 } = 0.775 ∧
    word_quality_score (7, 1/2) { defaultSettings with ocr_trigger_min_words := -5 } = 0.775 := by
  refine ⟨le_max_left _ _, ?_, by norm_num [word_quality_score, defaultSettings],
    by norm_num [word_quality_score, defaultSettings]⟩
  simp only [word_quality_score]
  ring

/-- C3: with both extractions non-empty, the arbiter chooses OCR exactly
when one of the three spec conditions holds (score margin 0.04, starved
native with more OCR words, or ratio gain 0.12 with enough OCR words); an
empty OCR extraction keeps native and an empty native extraction (OCR
non-empty) uses OCR; and on the S2 metrics (10, 0.55) vs (25, 0.90) the
scores are 1991/3600 (≈ 0.553) and 0.955 and OCR is used. -/
theorem should_use_ocr_characterization (native_count ocr_count : Nat)
    (native_ratio ocr_ratio : ℚ)
    (hn : native_count ≠ 0) (ho : ocr_count ≠ 0) :
    (should_use_ocr (native_count, native_ratio) (ocr_count, ocr_ratio) defaultSettings = true ↔
      (word_quality_score (ocr_count, ocr_ratio) defaultSettings ≥
        word_quality_score (native_count, native_ratio) defaultSettings + 0.04 ∨
       ((native_count : Int) < 18 ∧ ocr_count > native_count) ∨
       (ocr_ratio ≥ native_ratio + 0.12 ∧ ocr_count ≥ max 3 (native_count / 2)))) ∧
    should_use_ocr (native_count, native_ratio) (0, ocr_ratio) defaultSettings = false ∧
    should_use_ocr (0, native_ratio) (ocr_count, ocr_ratio) defaultSettings = true ∧
    word_quality_score (10, 0.55) defaultSettings = 1991/3600 ∧
    |word_quality_score (10, 0.55) defaultSettings - 0.553| < 0.001 ∧
    word_quality_score (25, 0.90) defaultSettings = 0.955 ∧
    should_use_ocr (10, 0.55) (25, 0.90) defaultSettings = true := by
  refine ⟨?_, by simp [should_use_ocr], by simp [should_use_ocr, hn, ho],
    by norm_num [word_quality_score, defaultSettings],
    by norm_num [word_quality_score, defaultSettings, abs_lt],
    by norm_num [word_quality_score, defaultSettings],
    by norm_num [should_use_ocr, word_quality_score, defaultSettings, OCR_SCORE_MARGIN]⟩
  simp only [should_use_ocr, OCR_SCORE_MARGIN]
  rw [if_neg ho, if_neg hn]
  have h18 : defaultSettings.ocr_trigger_min_words = 18 := rfl
  split_ifs with h1 h2 h3
  · simp only [true_iff]
    exact Or.inl h1
  · simp only [true_iff]
    rw [h18] at h2
    exact Or.inr (Or.inl h2)
  · simp only [true_iff]
    exact Or.inr (Or.inr h3)
  · simp only [false_iff]
    rw [h18] at h2
    tauto

/-- C2 counterexample: on the S3 input (45 spans of text length 20) the
sliding-window chunker emits two windows, `(0, 42)` and `(22, 45)` — there
is no third window, and in particular none starting at 24. -/
theorem chunk_span_window_s3_refutes_claim :
    (chunk_span_window s3SpanRefs).length = 2 ∧
    (24, 45) ∉ chunk_span_window s3SpanRefs ∧
    (22, 44) ∉ chunk_span_window s3SpanRefs := by
  decide

/-- C2 (amended): on the S3 input the chunker emits exactly the windows
`(0, 42)` (42 spans, as `20 + 21·41 = 881 ≤ 900 < 902`) and `(22, 45)`
(the final window: starting at `42 - 20 = 22`, the remaining 23 spans join
to 482 characters, within the limit, so the second window is the last). -/
theorem chunk_span_window_s3_exact :
    chunk_span_window s3SpanRefs = [(0, 42), (22, 45)] := by
  decide

/-- C10: the overlap count and the weighted overlap score depend on a line
only through its normalized, filtered token set (tokens shorter than 3
characters or in the stopword set are discarded before matching); a line
whose tokens are all filtered out scores 0 and 0.0; any match certifies a
surviving token; and concretely a literal occurrence of a stopword
("and") or of a short token ("ab" inside "abcd") can never produce a
match, while a genuine content word does. -/
theorem keyword_overlap_filters_line_tokens (text text₂ : String) (terms : List String) :
    (normalizedLineTokens text = normalizedLineTokens text₂ →
      keyword_overlap_count text terms = keyword_overlap_count text₂ terms ∧
      keyword_overlap_weighted_score text terms = keyword_overlap_weighted_score text₂ terms) ∧
    ((normalizedLineTokens text).isEmpty →
      keyword_overlap_count text terms = 0 ∧ keyword_overlap_weighted_score text terms = 0) ∧
    (keyword_overlap_count text terms ≠ 0 →
      ∃ token ∈ normalizedLineTokens text,
        ¬ token = "" ∧ token.length ≥ 3 ∧ token ∉ QUESTION_STOPWORDS) ∧
    keyword_overlap_count "and by the" ["and"] = 0 ∧
    keyword_overlap_weighted_score "and by the" ["and"] = 0 ∧
    keyword_overlap_count "ab cd" ["abcd"] = 0 ∧
    keyword_overlap_count "hello world" ["hello"] = 1 := by
  refine ⟨?_, ?_, ?_, by decide, by decide, by decide, by decide⟩
  · intro h
    constructor
    · simp only [keyword_overlap_count, h]
    · simp only [keyword_overlap_weighted_score, h]
  · intro h
    constructor
    · simp [keyword_overlap_count, h]
    · simp [keyword_overlap_weighted_score, h]
  · intro h
    have hne : ¬ (normalizedLineTokens text).isEmpty := by
      intro he
      exact h (by simp [keyword_overlap_count, he])
    rcases List.exists_mem_of_ne_nil _ (by simpa [List.isEmpty_iff] using hne) with ⟨token, htok⟩
    refine ⟨token, htok, ?_⟩
    have := List.of_mem_filter htok
    simpa using this

/-- Witness for C3: the characterization applied at the S2 metrics. -/
theorem should_use_ocr_characterization_witness :
    should_use_ocr (10, 0.55) (25, 0.90) defaultSettings = true :=
  (should_use_ocr_characterization 10 25 0.55 0.90 (by norm_num) (by norm_num)).2.2.2.2.2.2

theorem mergeSort_singleton_eq {α : Type} (le : α → α → Bool) (a : α) :
    [a].mergeSort le = [a] :=
  List.perm_singleton.mp (List.mergeSort_perm [a] le)

/-- C6: global evidence filtering (with the display re-sort `_build_evidence`
applies) equals the specification's description at the default thresholds
`(0.20, 0.60, 0.72)`: sort by descending score, floor
`max(0.20, best·0.60)`, greedy walk stopping below the floor or below the
drop ratio, truncation to `answer_max_evidence_items` when positive, and
display order `(page, y1, x1, -score)`; the top-1 item always survives. -/
theorem filter_scored_evidence_matches_spec (items : List ScoredEvidenceItem)
    (s : Settings)
    (h1 : s.evidence_relative_score_threshold = 0.60)
    (h2 : s.evidence_drop_ratio_stop = 0.72)
    (h3 : s.evidence_min_absolute_score = 0.20) :
    order_evidence_for_display (filter_scored_evidence items s) =
      specFilterEvidence s.answer_max_evidence_items items ∧
    (¬ items.isEmpty → ¬ (filter_scored_evidence items s).isEmpty) := by
  by_cases hi : items.isEmpty
  · have h0 : items = [] := List.isEmpty_iff.mp hi
    subst h0
    refine ⟨?_, fun h => absurd rfl h⟩
    simp [order_evidence_for_display, filter_scored_evidence, specFilterEvidence,
      List.mergeSort_nil]
  · have hms : items.mergeSort filterSortLe ≠ [] := by
      intro h
      have hp := List.mergeSort_perm items filterSortLe
      rw [h] at hp
      exact hi (List.isEmpty_iff.mpr hp.symm.eq_nil)
    obtain ⟨top, rest, hsplit⟩ := List.exists_cons_of_ne_nil hms
    have hsorted : ∀ b ∈ rest, filterSortLe top b = true := by
      have hp := @List.sorted_mergeSort ScoredEvidenceItem filterSortLe filterSortLe_trans
        filterSortLe_total items
      rw [hsplit] at hp
      exact fun b hb => (List.pairwise_cons.mp hp).1 b hb
    have hscore_le : ∀ b ∈ rest, b.score ≤ top.score := fun b hb =>
      filterSortLe_score_le _ _ (hsorted b hb)
    have hclamp1 : min 1 (max 0 s.evidence_relative_score_threshold) = (0.60 : ℚ) := by
      rw [h1]; norm_num
    have hclamp2 : min 1 (max 0 s.evidence_drop_ratio_stop) = (0.72 : ℚ) := by
      rw [h2]; norm_num
    have hclamp3 : max 0 s.evidence_min_absolute_score = (0.20 : ℚ) := by
      rw [h3]; norm_num
    by_cases hbest : top.score ≤ 0
    · have hwalk : specEvidenceWalk (max 0.20 (top.score * 0.60)) 0.72 top.score rest = [] := by
        cases rest with
        | nil => rfl
        | cons y ys =>
          have hy : y.score < max 0.20 (top.score * 0.60) :=
            lt_of_le_of_lt (le_trans (hscore_le y (by simp)) hbest)
              (lt_of_lt_of_le (by norm_num) (le_max_left _ _))
          simp [specEvidenceWalk, hy]
      have hfse : filter_scored_evidence items s = [top] := by
        unfold filter_scored_evidence
        rw [if_neg (by simpa using hi), hsplit]
        dsimp only
        rw [if_pos hbest]
      have hspec : specFilterEvidence s.answer_max_evidence_items items = [top] := by
        unfold specFilterEvidence
        rw [hsplit]
        dsimp only
        rw [hwalk]
        by_cases hmax : s.answer_max_evidence_items > 0
        · rw [if_pos hmax, List.take_of_length_le (by simp; omega),
            mergeSort_singleton_eq]
        · rw [if_neg hmax, mergeSort_singleton_eq]
      refine ⟨?_, fun _ => by simp [hfse]⟩
      rw [hfse, hspec, order_evidence_for_display, mergeSort_singleton_eq]
    · have hbest' : (0 : ℚ) < top.score := not_le.mp hbest
      have hfloor : (0 : ℚ) < max 0.20 (top.score * 0.60) :=
        lt_of_lt_of_le (by norm_num) (le_max_left _ _)
      have hwalk := evidenceWalk_eq_spec (max 0.20 (top.score * 0.60)) 0.72 hfloor rest
        top.score hbest'
      have hfse : filter_scored_evidence items s =
          (if s.answer_max_evidence_items > 0 then
            (top :: specEvidenceWalk (max 0.20 (top.score * 0.60)) 0.72 top.score rest).take
              s.answer_max_evidence_items.toNat
          else top :: specEvidenceWalk (max 0.20 (top.score * 0.60)) 0.72 top.score rest) := by
        unfold filter_scored_evidence
        rw [if_neg (by simpa using hi), hsplit]
        dsimp only
        rw [if_neg hbest, hclamp1, hclamp2, hclamp3, hwalk]
      have hspec : specFilterEvidence s.answer_max_evidence_items items =
          (if s.answer_max_evidence_items > 0 then
            (top :: specEvidenceWalk (max 0.20 (top.score * 0.60)) 0.72 top.score rest).take
              s.answer_max_evidence_items.toNat
          else top :: specEvidenceWalk (max 0.20 (top.score * 0.60)) 0.72 top.score rest).mergeSort
            displaySortLe := by
        unfold specFilterEvidence
        rw [hsplit]
      refine ⟨by rw [hfse, hspec, order_evidence_for_display], fun _ => ?_⟩
      rw [hfse]
      by_cases hmax : s.answer_max_evidence_items > 0
      · rw [if_pos hmax]
        simp only [List.isEmpty_iff]
        intro habs
        have : s.answer_max_evidence_items.toNat = 0 := by
          by_contra hz
          rw [List.take_eq_nil_iff] at habs
          rcases habs with h | h
          · exact hz h
          · exact List.cons_ne_nil _ _ h
        omega
      · rw [if_neg hmax]
        simp

/-- Concrete scored items used to instantiate the filtering theorem. -/
def c6WitnessItems : List ScoredEvidenceItem :=
  [{ item := { page := 1, text := "alpha",
               bbox := { x1 := 0, y1 := 0, x2 := 10, y2 := 2 },
               page_width := none, page_height := none }, score := 1 },
   { item := { page := 1, text := "beta",
               bbox := { x1 := 0, y1 := 5, x2 := 10, y2 := 7 },
               page_width := none, page_height := none }, score := 0.8 },
   { item := { page := 2, text := "gamma",
               bbox := { x1 := 0, y1 := 1, x2 := 10, y2 := 3 },
               page_width := none, page_height := none }, score := 0.1 }]

/-- Witness for C6: the refinement applied at the default settings on a
concrete three-item list. -/
theorem filter_scored_evidence_matches_spec_witness :
    order_evidence_for_display (filter_scored_evidence c6WitnessItems defaultSettings) =
      specFilterEvidence defaultSettings.answer_max_evidence_items c6WitnessItems :=
  (filter_scored_evidence_matches_spec c6WitnessItems defaultSettings rfl rfl rfl).1

/-- C7: when the ingestion body raises, every pending row operation is
discarded by the rollback — the committed page/span/chunk rows are exactly
the ones from before the run, whatever the partial operations were — and a
separate commit records `status = "error"` with the failure reason in
`error_message`; the function returns normally (the exception is swallowed,
as the plain pair return type shows). -/
theorem ingestion_failure_rolls_back (document : DocRow) (committed : DocumentRows)
    (run : IngestRun) (exc : String) (herr : run.result = .error exc) :
    process_document_metadata (some document) committed run =
      (some { status := "error", total_pages := none, page_width := none,
              page_height := none,
              error_message := some ("Document processing failed: " ++ exc) },
       committed) := by
  simp [process_document_metadata, herr]

/-- Witness for C7: a run that stages a page row and then fails leaves the
committed rows empty and marks the document as errored. -/
theorem ingestion_failure_rolls_back_witness :
    process_document_metadata
        (some { status := "processing", total_pages := none, page_width := none,
                page_height := none, error_message := none })
        { pages := [], spans := [], chunks := [] }
        { ops := [fun rows => { rows with pages := (1, none, none) :: rows.pages }],
          result := .error "PDF has no pages." } =
      (some { status := "error", total_pages := none, page_width := none,
              page_height := none,
              error_message := some ("Document processing failed: " ++ "PDF has no pages.") },
       { pages := [], spans := [], chunks := [] }) :=
  ingestion_failure_rolls_back _ _ _ _ rfl

/-- C8: once the early gates pass (non-empty question, ready document,
configured key, matching dimensions), a failure of the embedding back-fill
is re-raised as a `QAError` — surfaced as HTTP 500 by the route — while a
failure of the vector retrieval is swallowed and answered with the canned
insufficient-evidence response. -/
theorem backfill_raises_retrieval_insufficient (w : QAWorld) (exc : String)
    (hq : ¬ stripStr w.question = "")
    (hst : w.documentStatus = some "ready")
    (hk : ¬ w.settings.openai_api_key.getD "" = "")
    (hd : w.settings.openai_embedding_dimensions = 1536) :
    (w.embedBackfill = .error exc →
      ask_question w = .error (.qaError ("Failed to prepare chunk embeddings: " ++ exc)) ∧
      httpStatusOfQAErr (.qaError ("Failed to prepare chunk embeddings: " ++ exc)) = 500) ∧
    (w.embedBackfill = .ok () → w.retrieval = .error exc →
      ask_question w = .ok insufficientResponse ∧
      insufficientResponse.answer = INSUFFICIENT_EVIDENCE_ANSWER ∧
      insufficientResponse.evidence = []) := by
  constructor
  · intro he
    refine ⟨?_, rfl⟩
    simp [ask_question, hq, hst, hk, hd, he]
  · intro he hr
    refine ⟨?_, rfl, rfl⟩
    simp [ask_question, hq, hst, hk, hd, he, hr]

/-- A world whose embedding back-fill fails. -/
def backfillFailWorld : QAWorld :=
  { question := "Who signed the order?",
    documentStatus := some "ready",
    settings := { defaultSettings with openai_api_key := some "key" },
    embedBackfill := .error "boom",
    retrieval := .ok [],
    generation := .ok ("", []),
    buildEvidence := fun _ _ _ => [],
    spans := [] }

/-- The same world with a healthy back-fill but failing retrieval. -/
def retrievalFailWorld : QAWorld :=
  { backfillFailWorld with embedBackfill := .ok (), retrieval := .error "boom" }

/-- Witness for C8: the two failure modes on concrete worlds. -/
theorem backfill_raises_retrieval_insufficient_witness :
    ask_question backfillFailWorld =
      .error (.qaError ("Failed to prepare chunk embeddings: " ++ "boom")) ∧
    ask_question retrievalFailWorld = .ok insufficientResponse :=
  ⟨(((backfill_raises_retrieval_insufficient backfillFailWorld "boom"
      (by decide) rfl (by decide) rfl).1) rfl).1,
   (((backfill_raises_retrieval_insufficient retrievalFailWorld "boom"
      (by decide) rfl (by decide) rfl).2) rfl rfl).1⟩

theorem citeFold_foldl_spec (raw : List (Option Nat)) :
    ∀ acc : List Nat, acc.Nodup →
      (List.foldl citeFold acc raw).Nodup ∧
      (∀ i, i ∈ List.foldl citeFold acc raw ↔ i ∈ acc ∨ some i ∈ raw) ∧
      ∃ t, List.foldl citeFold acc raw = acc ++ t ∧ t.Sublist (raw.filterMap id) := by
  induction raw with
  | nil =>
      intro acc hacc
      exact ⟨hacc, fun i => by simp, ⟨[], by simp, by simp⟩⟩
  | cons entry rest ih =>
      intro acc hacc
      cases entry with
      | none =>
          have h := ih acc hacc
          rw [List.foldl_cons, show citeFold acc none = acc from rfl]
          refine ⟨h.1, fun i => ?_, ?_⟩
          · rw [h.2.1 i]
            simp
          · rcases h.2.2 with ⟨t, ht, hsub⟩
            exact ⟨t, ht, by simpa using hsub⟩
      | some pid =>
          by_cases hmem : pid ∈ acc
          · have h := ih acc hacc
            rw [List.foldl_cons, show citeFold acc (some pid) = acc from by simp [citeFold, hmem]]
            refine ⟨h.1, fun i => ?_, ?_⟩
            · rw [h.2.1 i]
              simp only [List.mem_cons, Option.some.injEq]
              constructor
              · rintro (h' | h')
                · exact Or.inl h'
                · exact Or.inr (Or.inr h')
              · rintro (h' | h' | h')
                · exact Or.inl h'
                · exact Or.inl (h' ▸ hmem)
                · exact Or.inr h'
            · rcases h.2.2 with ⟨t, ht, hsub⟩
              refine ⟨t, ht, ?_⟩
              simpa using hsub.cons pid
          · have hacc' : (acc ++ [pid]).Nodup := by
              simp [List.nodup_append, hacc, hmem]
            have h := ih (acc ++ [pid]) hacc'
            rw [List.foldl_cons,
              show citeFold acc (some pid) = acc ++ [pid] from by simp [citeFold, hmem]]
            refine ⟨h.1, fun i => ?_, ?_⟩
            · rw [h.2.1 i]
              simp only [List.mem_append, List.mem_cons, List.mem_singleton, Option.some.injEq]
              tauto
            · rcases h.2.2 with ⟨t, ht, hsub⟩
              refine ⟨pid :: t, by rw [ht]; simp, ?_⟩
              simpa using hsub.cons₂ pid

theorem extractCitations_spec (raw : List (Option Nat)) :
    (extractCitations raw).Nodup ∧
    (∀ i, i ∈ extractCitations raw ↔ some i ∈ raw) ∧
    (extractCitations raw).Sublist (raw.filterMap id) := by
  have h := citeFold_foldl_spec raw [] List.nodup_nil
  refine ⟨h.1, fun i => by simpa using h.2.1 i, ?_⟩
  rcases h.2.2 with ⟨t, ht, hsub⟩
  have : extractCitations raw = t := by simpa [extractCitations] using ht
  rw [this]
  exact hsub

/-- C5: the answer generator's citations are the `chunk_id` values that
parse as UUIDs, first occurrences kept in order and de-duplicated (nodup, a
sublist of the parsed ids, and containing exactly the parsing ids); the
orchestrator intersects them with the retrieved context, and on an empty
intersection returns the canned insufficient-evidence response when
`require_llm_citations` is true, while with the flag false the top-1
retrieved context chunk is substituted as the single citation. -/
theorem citation_intersection_gate (w : QAWorld) (retrieved : List RetrievedChunk)
    (rawAnswer : String) (raw : List (Option Nat))
    (context_chunks : List RetrievedChunk) (cited valid : List Nat)
    (hq : ¬ stripStr w.question = "")
    (hst : w.documentStatus = some "ready")
    (hk : ¬ w.settings.openai_api_key.getD "" = "")
    (hd : w.settings.openai_embedding_dimensions = 1536)
    (he : w.embedBackfill = .ok ())
    (hr : w.retrieval = .ok retrieved)
    (hne : ¬ retrieved.isEmpty)
    (hconf : has_sufficient_retrieval_confidence w.settings retrieved = true)
    (hg : w.generation = .ok (rawAnswer, raw))
    (hctx : context_chunks = pySlice w.settings.retrieval_max_context_chunks retrieved)
    (hcited : cited = extractCitations raw)
    (hvalid : valid = cited.filter (fun cid => (lookupChunk context_chunks cid).isSome)) :
    cited.Nodup ∧
    (∀ i, i ∈ cited ↔ some i ∈ raw) ∧
    cited.Sublist (raw.filterMap id) ∧
    ask_question w =
      qaAfterGeneration w (stripStr w.question) context_chunks (stripStr rawAnswer) cited ∧
    (valid = [] → w.settings.require_llm_citations = true →
      ask_question w = .ok insufficientResponse) ∧
    (valid = [] → w.settings.require_llm_citations = false →
      ∀ c0 c0rest, context_chunks = c0 :: c0rest →
        ask_question w =
          qaAfterCitations w (stripStr w.question) (stripStr rawAnswer) [c0.id] context_chunks) := by
  subst hctx hcited hvalid
  have hask : ask_question w =
      qaAfterGeneration w (stripStr w.question)
        (pySlice w.settings.retrieval_max_context_chunks retrieved)
        (stripStr rawAnswer) (extractCitations raw) := by
    simp [ask_question, hq, hst, hk, hd, he, hr, hne, hconf, hg]
  obtain ⟨hnd, hmem, hsub⟩ := extractCitations_spec raw
  refine ⟨hnd, hmem, hsub, hask, ?_, ?_⟩
  · intro hv hreq
    rw [hask]
    simp [qaAfterGeneration, hv, hreq]
  · intro hv hreq c0 c0rest hcons
    rw [hcons] at hv
    rw [hask, hcons]
    simp [qaAfterGeneration, hv, hreq]

/-- A single retrieved context chunk for the citation witness. -/
def c5Chunk : RetrievedChunk :=
  { id := 1, chunk_index := 0, text := "total 5", page_start := some 1,
    page_end := some 1, span_start_id := some 1, span_end_id := some 1,
    distance := some 0.3 }

/-- A world whose model answer cites chunk 1 and a chunk 9999 that is not in
the retrieved context. -/
def citationWorld : QAWorld :=
  { question := "What is the total?",
    documentStatus := some "ready",
    settings := { defaultSettings with openai_api_key := some "key" },
    embedBackfill := .ok (),
    retrieval := .ok [c5Chunk],
    generation := .ok ("The total is 5.", [some 1, some 9999]),
    buildEvidence := fun _ _ _ => [],
    spans := [] }

/-- Witness for C5: on citations `[1, 9999]` with 9999 outside the retrieved
set the extraction keeps `[1, 9999]` (ordered, de-duplicated) and the
intersection with the context reduces to `[1]`. -/
theorem citation_intersection_gate_witness :
    (extractCitations [some 1, some 9999]).Nodup ∧
    ask_question citationWorld =
      qaAfterGeneration citationWorld (stripStr citationWorld.question)
        (pySlice citationWorld.settings.retrieval_max_context_chunks [c5Chunk])
        (stripStr "The total is 5.") (extractCitations [some 1, some 9999]) ∧
    extractCitations [some 1, some 9999] = [1, 9999] ∧
    (extractCitations [some 1, some 9999]).filter
      (fun cid =>
        (lookupChunk (pySlice citationWorld.settings.retrieval_max_context_chunks [c5Chunk])
          cid).isSome) = [1] := by
  have hconf : has_sufficient_retrieval_confidence citationWorld.settings [c5Chunk] = true := by
    simp only [has_sufficient_retrieval_confidence, citationWorld, c5Chunk, defaultSettings,
      List.filterMap_cons, List.filterMap_nil, List.isEmpty_cons, Bool.false_eq_true,
      if_false, List.foldl_nil, decide_eq_true_eq]
    norm_num
  have h := citation_intersection_gate citationWorld [c5Chunk] "The total is 5."
    [some 1, some 9999] _ _ _ (by decide) rfl (by decide) rfl rfl rfl (by decide)
    hconf rfl rfl rfl rfl
  exact ⟨h.1, h.2.2.2.1, by decide, by decide⟩

theorem validate_evidence_mapping_iff (spans : List StoredSpan) (evidence : List EvidenceItem) :
    validate_evidence_mapping spans evidence = true ↔
      ∀ item ∈ evidence,
        item.bbox.x1 < item.bbox.x2 ∧ item.bbox.y1 < item.bbox.y2 ∧
        ∃ s ∈ spans, s.page_number = item.page ∧ s.x2 > item.bbox.x1 ∧
          s.x1 < item.bbox.x2 ∧ s.y2 > item.bbox.y1 ∧ s.y1 < item.bbox.y2 := by
  simp [validate_evidence_mapping, List.all_eq_true, decide_eq_true_eq]

theorem qaFinalize_ok_cases (w : QAWorld) (q a : String) (sel : List RetrievedChunk)
    (r : AskQuestionResponse) (h : qaFinalize w q a sel = .ok r) :
    r = insufficientResponse ∨ validate_evidence_mapping w.spans r.evidence = true := by
  simp only [qaFinalize] at h
  split at h
  · exact Or.inl (by injection h with h2; exact h2.symm)
  · split at h
    · exact Or.inl (by injection h with h2; exact h2.symm)
    · next h2 =>
        injection h with h3
        refine Or.inr ?_
        rw [← h3]
        exact of_not_not h2

theorem qaAfterCitations_ok_cases (w : QAWorld) (q a : String) (vc : List Nat)
    (ctx : List RetrievedChunk) (r : AskQuestionResponse)
    (h : qaAfterCitations w q a vc ctx = .ok r) :
    r = insufficientResponse ∨ validate_evidence_mapping w.spans r.evidence = true := by
  simp only [qaAfterCitations] at h
  repeat
    first
    | exact qaFinalize_ok_cases _ _ _ _ _ h
    | (injection h with h2; exact Or.inl h2.symm)
    | injection h
    | split at h

theorem qaAfterGeneration_ok_cases (w : QAWorld) (q : String)
    (ctx : List RetrievedChunk) (a : String) (ids : List Nat)
    (r : AskQuestionResponse) (h : qaAfterGeneration w q ctx a ids = .ok r) :
    r = insufficientResponse ∨ validate_evidence_mapping w.spans r.evidence = true := by
  simp only [qaAfterGeneration] at h
  repeat
    first
    | exact qaAfterCitations_ok_cases _ _ _ _ _ _ h
    | (injection h with h2; exact Or.inl h2.symm)
    | injection h
    | split at h

theorem ask_question_ok_cases (w : QAWorld) (r : AskQuestionResponse)
    (h : ask_question w = .ok r) :
    r = insufficientResponse ∨ validate_evidence_mapping w.spans r.evidence = true := by
  simp only [ask_question] at h
  repeat
    first
    | exact qaAfterGeneration_ok_cases _ _ _ _ _ _ h
    | (injection h with h2; exact Or.inl h2.symm)
    | injection h
    | split at h

/-- C1: any result `ask_question` returns (rather than raises) is either
exactly the canned insufficient-evidence response — the fixed literal
answer with empty evidence, which every failed gate produces — or a
response that passed `_validate_evidence_mapping`: every evidence bbox
satisfies `x1 < x2` and `y1 < y2` and strictly overlaps at least one stored
span on its page. -/
theorem ask_question_insufficient_or_grounded (w : QAWorld) (r : AskQuestionResponse)
    (h : ask_question w = .ok r) :
    (r = insufficientResponse ∨ validate_evidence_mapping w.spans r.evidence = true) ∧
    insufficientResponse.answer = INSUFFICIENT_EVIDENCE_ANSWER ∧
    insufficientResponse.evidence = [] ∧
    ∀ item ∈ r.evidence,
      item.bbox.x1 < item.bbox.x2 ∧ item.bbox.y1 < item.bbox.y2 ∧
      ∃ s ∈ w.spans, s.page_number = item.page ∧ s.x2 > item.bbox.x1 ∧
        s.x1 < item.bbox.x2 ∧ s.y2 > item.bbox.y1 ∧ s.y1 < item.bbox.y2 := by
  have hd := ask_question_ok_cases w r h
  refine ⟨hd, rfl, rfl, ?_⟩
  rcases hd with hins | hval
  · intro item hitem
    rw [hins] at hitem
    simp [insufficientResponse] at hitem
  · exact (validate_evidence_mapping_iff _ _).mp hval

/-- The retrieved chunk of the grounded-answer witness world. -/
def c1Chunk : RetrievedChunk :=
  { id := 7, chunk_index := 0, text := "alpha is 5", page_start := some 1,
    page_end := some 1, span_start_id := some 1, span_end_id := some 1,
    distance := some 0.3 }

/-- A stored span covering the witness evidence box. -/
def c1Span : StoredSpan := { page_number := 1, x1 := 0, y1 := 0, x2 := 10, y2 := 2 }

/-- The evidence item the witness world's evidence builder produces. -/
def c1Item : EvidenceItem :=
  { page := 1, text := "alpha", bbox := { x1 := 1, y1 := 0.5, x2 := 5, y2 := 1.5 },
    page_width := none, page_height := none }

/-- A world on which every gate passes and a grounded answer is returned. -/
def groundedWorld : QAWorld :=
  { question := "What is alpha?",
    documentStatus := some "ready",
    settings := { defaultSettings with openai_api_key := some "key" },
    embedBackfill := .ok (),
    retrieval := .ok [c1Chunk],
    generation := .ok ("Alpha is 5.", [some 7]),
    buildEvidence := fun _ _ _ => [c1Item],
    spans := [c1Span] }

/-- Witness for C1: on the grounded world a non-canned response is returned
and its (non-empty) evidence is validated against the stored spans. -/
theorem ask_question_insufficient_or_grounded_witness :
    ask_question groundedWorld = .ok { answer := "Alpha is 5.", evidence := [c1Item] } ∧
    (({ answer := "Alpha is 5.", evidence := [c1Item] } : AskQuestionResponse) =
        insufficientResponse ∨
      validate_evidence_mapping groundedWorld.spans
        ({ answer := "Alpha is 5.", evidence := [c1Item] } : AskQuestionResponse).evidence =
        true) := by
  have hval : validate_evidence_mapping groundedWorld.spans [c1Item] = true := by
    simp only [validate_evidence_mapping, groundedWorld, c1Span, c1Item, List.all_cons,
      List.all_nil, Bool.and_true, decide_eq_true_eq]
    norm_num
  have hconf : has_sufficient_retrieval_confidence groundedWorld.settings [c1Chunk] = true := by
    simp only [has_sufficient_retrieval_confidence, groundedWorld, c1Chunk, defaultSettings,
      List.filterMap_cons, List.filterMap_nil, List.isEmpty_cons, Bool.false_eq_true,
      if_false, List.foldl_nil, decide_eq_true_eq]
    norm_num
  have hq : groundedWorld.question = "What is alpha?" := rfl
  have hqe : (stripStr "What is alpha?" = "") = False := eq_false (by decide)
  have hstatus : groundedWorld.documentStatus = some "ready" := rfl
  have hkey : groundedWorld.settings.openai_api_key = some "key" := rfl
  have hdim : groundedWorld.settings.openai_embedding_dimensions = 1536 := rfl
  have hbf : groundedWorld.embedBackfill = Except.ok () := rfl
  have hretr : groundedWorld.retrieval = Except.ok [c1Chunk] := rfl
  have hgen : groundedWorld.generation = Except.ok ("Alpha is 5.", [some 7]) := rfl
  have hmax : groundedWorld.settings.retrieval_max_context_chunks = 6 := rfl
  have hmin : groundedWorld.settings.minimum_evidence_items = 1 := rfl
  have hreq : groundedWorld.settings.require_llm_citations = true := rfl
  have hbe : groundedWorld.buildEvidence = fun _ _ _ => [c1Item] := rfl
  have hstrip : stripStr "Alpha is 5." = "Alpha is 5." := by decide
  have hunc : answer_is_uncertain "Alpha is 5." = false := by decide
  have hid : c1Chunk.id = 7 := rfl
  have h : ask_question groundedWorld = .ok { answer := "Alpha is 5.", evidence := [c1Item] } := by
    simp only [ask_question, hq, hqe, hstatus, hkey, hdim, hbf, hretr, hgen, hmax, hconf,
      if_false, Option.getD_some]
    simp only [qaAfterGeneration, qaAfterCitations, qaFinalize, pySlice, extractCitations,
      citeFold, lookupChunk, selectCitedChunks, hstrip, hunc, hid, hreq, hbe, hmin, hval,
      List.foldl_cons, List.foldl_nil, List.filter_cons, List.filter_nil]
    simp [hval, c1Chunk]
  exact ⟨h, (ask_question_insufficient_or_grounded groundedWorld _ h).1⟩

theorem rank_mem_get (candidates : List EvidenceLineCandidate)
    (question_terms answer_terms : List String) (question_weight answer_weight : ℚ)
    (e : ℚ × Nat × EvidenceLineCandidate)
    (he : e ∈ rank_line_candidates_with_context candidates question_terms answer_terms
      question_weight answer_weight) :
    candidates.get? e.2.1 = some e.2.2 := by
  unfold rank_line_candidates_with_context at he
  by_cases hc : candidates.isEmpty
  · rw [if_pos hc] at he
    exact absurd he (List.not_mem_nil _)
  · rw [if_neg hc] at he
    rw [List.mem_mergeSort] at he
    rcases List.mem_map.mp he with ⟨p, hp, hfp⟩
    obtain ⟨i, x⟩ := p
    obtain ⟨hlt, hx⟩ := List.mem_enum hp
    have hget : candidates.get? i = some x := by
      rw [List.get?_eq_getElem?, List.getElem?_eq_getElem hlt, hx]
    rw [← hfp]
    exact hget

theorem page_line_candidates_signature (question_terms answer_terms : List String)
    (question_weight answer_weight : ℚ) (spans : List SpanR)
    (c : EvidenceLineCandidate)
    (hc : c ∈ page_line_candidates true question_terms answer_terms question_weight
      answer_weight spans) :
    c.signature_signal = signature_line_signal c.text := by
  unfold page_line_candidates at hc
  rcases List.mem_filterMap.mp hc with ⟨ls, _, hbody⟩
  simp only [eq_self_iff_true, if_true] at hbody
  split_ifs at hbody with h1 h2
  injection hbody with h3
  rw [← h3]

theorem build_line_item_text (page_number : Int) (page_width page_height : Option ℚ)
    (candidate : EvidenceLineCandidate) (item : EvidenceItem)
    (h : build_line_evidence_item page_number page_width page_height candidate = some item) :
    item.text = stripStr candidate.text := by
  simp only [build_line_evidence_item] at h
  split_ifs at h with h1 h2 h3
  injection h with h4
  rw [← h4]

/-- C4: in signature mode (the question mentions signing), every candidate
line's stored signal is exactly `_signature_line_signal` of its excerpt;
every evidence item the per-page selection emits stems from a candidate
whose signal reaches the 0.9 threshold; and a page none of whose candidate
lines reaches the threshold contributes no evidence items at all. -/
theorem signature_mode_keeps_only_high_signal (question_terms answer_terms : List String)
    (min_keyword_overlap : Int) (question_weight answer_weight : ℚ)
    (page_number : Int) (page_width page_height : Option ℚ) (spans : List SpanR) :
    (∀ c ∈ page_line_candidates true question_terms answer_terms question_weight
        answer_weight spans, c.signature_signal = signature_line_signal c.text) ∧
    (∀ it ∈ chunk_evidence_items_page question_terms answer_terms min_keyword_overlap
        question_weight answer_weight true page_number page_width page_height spans,
      ∃ c ∈ page_line_candidates true question_terms answer_terms question_weight
          answer_weight spans,
        c.signature_signal ≥ SIGNATURE_SIGNAL_THRESHOLD ∧ it.item.text = stripStr c.text) ∧
    ((∀ c ∈ page_line_candidates true question_terms answer_terms question_weight
        answer_weight spans, c.signature_signal < SIGNATURE_SIGNAL_THRESHOLD) →
      chunk_evidence_items_page question_terms answer_terms min_keyword_overlap
        question_weight answer_weight true page_number page_width page_height spans = []) := by
  refine ⟨fun c hc => page_line_candidates_signature _ _ _ _ _ c hc, ?_, ?_⟩
  · intro it hit
    simp only [chunk_evidence_items_page] at hit
    by_cases h1 : spans.isEmpty
    · rw [if_pos h1] at hit
      exact absurd hit (List.not_mem_nil _)
    · rw [if_neg h1] at hit
      by_cases h2 : (page_line_candidates true question_terms answer_terms question_weight
          answer_weight spans).isEmpty
      · rw [if_pos h2] at hit
        exact absurd hit (List.not_mem_nil _)
      · rw [if_neg h2] at hit
        by_cases h3 : ((rank_line_candidates_with_context
            (page_line_candidates true question_terms answer_terms question_weight
              answer_weight spans) question_terms answer_terms question_weight
              answer_weight).filter
            (fun e => decide (e.2.2.signature_signal ≥ SIGNATURE_SIGNAL_THRESHOLD))).isEmpty
        · rw [if_pos h3] at hit
          exact absurd hit (List.not_mem_nil _)
        · rw [if_neg h3] at hit
          rcases List.mem_filterMap.mp hit with ⟨idx, hidx, hbind⟩
          rcases Option.bind_eq_some.mp hbind with ⟨candidate, hget, hmap⟩
          rcases Option.map_eq_some'.mp hmap with ⟨item0, hbuild, hitem⟩
          rw [List.mem_mergeSort, List.mem_dedup] at hidx
          rcases List.mem_map.mp hidx with ⟨entry, hentry, hidx2⟩
          rw [List.mem_filter] at hentry
          obtain ⟨hrank, hsig⟩ := hentry
          have hgetr := rank_mem_get _ _ _ _ _ _ hrank
          rw [hidx2, hget] at hgetr
          have hcand : candidate = entry.2.2 := by injection hgetr
          refine ⟨candidate, List.get?_mem hget, ?_, ?_⟩
          · rw [hcand]
            simpa [decide_eq_true_eq] using hsig
          · rw [← hitem]
            exact build_line_item_text _ _ _ _ _ hbuild
  · intro hall
    simp only [chunk_evidence_items_page]
    by_cases h1 : spans.isEmpty
    · rw [if_pos h1]
    · rw [if_neg h1]
      by_cases h2 : (page_line_candidates true question_terms answer_terms question_weight
          answer_weight spans).isEmpty
      · rw [if_pos h2]
      · rw [if_neg h2]
        have hfil : ((rank_line_candidates_with_context
            (page_line_candidates true question_terms answer_terms question_weight
              answer_weight spans) question_terms answer_terms question_weight
              answer_weight).filter
            (fun e => decide (e.2.2.signature_signal ≥ SIGNATURE_SIGNAL_THRESHOLD))) = [] := by
          rw [List.filter_eq_nil_iff]
          intro e hee
          have hg := rank_mem_get _ _ _ _ _ _ hee
          have hmem := List.get?_mem hg
          have hlt := hall e.2.2 hmem
          simp only [decide_eq_true_eq]
          exact not_le.mpr hlt
        rw [hfil]
        simp

end PageProofQA
